import Mathlib

/-!
# Verification of the chatbot-template retrieval-augmented serving core

A shallow embedding in Lean 4 of the state-bearing parts of the repository:

* `query_engine.py` — `QueryEngine.query`, the orchestration of a query
  against the retrieval + synthesis backend;
* `embedding_engine.py` — `EmbeddingEngine.load_or_create_index`,
  `_index_exists` and `_persist_index`, the persistent vector-index cache;
* `web_interface.py` — `WebChatSession` (per-session message log) and
  `WebInterface` (session registry, connection fan-out, async query
  processing, expiry sweep);
* `web_server.py` — the `/api/chat` endpoint and the connect phase of the
  WebSocket endpoint.

Conventions of the embedding:

* External services (the llama-index retrieval/synthesis pipeline, the
  embedding model) are opaque function parameters; a Python call that may
  raise is a value of `Except String α`, the error being the exception's
  message.
* `datetime.now()` and `uuid.uuid4()` are modelled as explicit parameters
  (a timestamp `Nat`, a fresh identifier `String`) threaded by the caller.
* A Python `dict` is an association list whose keys are distinct; `dictSet`
  updates in place or appends, `dictDel` removes the entry of a key, and
  `List.lookup` is `dict.get`.
* The file system seen by the embedding engine is the single artifact slot
  `data/index/index.pkl`: absent, completely written, or truncated by a
  write that failed midway (`open(path, "wb")` creates/truncates the file
  before `pickle.dump` streams into it, so a failure during the dump leaves
  a partial file behind).
-/

namespace Chatbot

/-! ## config.py — the constants the modelled code reads -/

namespace config

def OLLAMA_MODEL : String := "qwen3:1.7b"

def TOP_K : Nat := 5

end config

/-! ## query_engine.py

`QueryEngine.query` runs `self.query_engine.query(query_text)` (retrieval +
refine synthesis against the backend) inside a catch-all `try/except`,
returning `str(response)` on success and the plain string
`f"Error processing query: {str(e)}"` when any exception is raised.

The backend call is opaque: a function from the query text to
`Except String String` (exception message, or rendered response). -/

def QueryEngine.query (backend : String → Except String String)
    (query_text : String) : String :=
  match backend query_text with
  | Except.ok response => response
  | Except.error e => "Error processing query: " ++ e

/-! ## embedding_engine.py -/

/-- State of the persisted index artifact at
`config.INDEX_PERSIST_DIR/index.pkl`. The serialized index payload is an
opaque `Nat`. A `truncated` artifact is a file left behind by a write that
failed after `open(path, "wb")` created/truncated it. -/
inductive ArtifactState
  | absent
  | complete (idx : Nat)
  | truncated
deriving DecidableEq, Repr

/-- The file system slice the embedding engine touches. -/
structure FS where
  artifact : ArtifactState
deriving DecidableEq, Repr

/-- Whether the blocking write of `pickle.dump(self.index, f)` runs to
completion or raises midway (disk full, serialization failure, …). -/
inductive WriteOutcome
  | success
  | failsMidway
deriving DecidableEq, Repr

/-- The exceptions that `load_or_create_index` can propagate. -/
inductive LoadOrCreateError
  | unpickle
  | embedding
  | writeFailed
deriving DecidableEq, Repr

/-- `EmbeddingEngine._index_exists`: `os.path.exists` on the artifact path;
a truncated file still exists. -/
def _index_exists (fs : FS) : Bool :=
  fs.artifact != ArtifactState.absent

/-- `EmbeddingEngine._persist_index` with `self.index` set: opens the
artifact path for writing (creating/truncating it) and dumps the index into
it. On success the artifact is the complete payload; if the dump fails
midway the truncated file remains and the exception propagates. -/
def _persist_index (_fs : FS) (idx : Nat) (w : WriteOutcome) :
    FS × Option LoadOrCreateError :=
  match w with
  | WriteOutcome.success => (⟨ArtifactState.complete idx⟩, none)
  | WriteOutcome.failsMidway =>
      (⟨ArtifactState.truncated⟩, some LoadOrCreateError.writeFailed)

/-- `EmbeddingEngine.load_or_create_index`.

* If `_index_exists()`: `pickle.load` the artifact and return it — the
  `documents` argument is never read on this path. Deserialization of a
  corrupt artifact raises (propagated to the caller).
* Otherwise: chunk the documents, embed every chunk and assemble the
  `VectorStoreIndex` (the opaque `buildIndex` parameter; `Except.error`
  is an embedding-call failure, which propagates before anything is
  written), then `_persist_index` the result.

The pair returned is (file system afterwards, result or propagated
exception). -/
def load_or_create_index (fs : FS) (documents : List String)
    (buildIndex : List String → Except Unit Nat) (w : WriteOutcome) :
    FS × Except LoadOrCreateError Nat :=
  if _index_exists fs then
    match fs.artifact with
    | ArtifactState.complete idx => (fs, Except.ok idx)
    | _ => (fs, Except.error LoadOrCreateError.unpickle)
  else
    match buildIndex documents with
    | Except.error _ => (fs, Except.error LoadOrCreateError.embedding)
    | Except.ok idx =>
      match _persist_index fs idx w with
      | (fs1, none) => (fs1, Except.ok idx)
      | (fs1, some e) => (fs1, Except.error e)

/-! ## Python dict model

A `dict` is an association list with pairwise-distinct keys, in insertion
order. `dictSet` models `d[k] = v` (update in place, else append),
`dictDel` models `del d[k]`, `List.lookup` models `d.get(k)`, membership of
the key models `k in d`. -/

def dictSet {α : Type} (l : List (String × α)) (k : String) (v : α) :
    List (String × α) :=
  if l.any (fun p => p.1 == k) then
    l.map (fun p => if p.1 == k then (k, v) else p)
  else l ++ [(k, v)]

def dictDel {α : Type} (l : List (String × α)) (k : String) :
    List (String × α) :=
  l.filter (fun p => p.1 != k)

/-! ## web_interface.py — data model -/

/-- The metadata dict attached to a `Message`: `{}` for user messages,
`{"model": …, "top_k": …}` for successful assistant messages,
`{"error": True}` for error-flagged assistant messages. -/
structure MessageMeta where
  model : Option String := none
  top_k : Option Nat := none
  error : Bool := false
deriving DecidableEq, Repr

/-- A chat message as built by `WebChatSession.add_message`:
`{"id": uuid4, "role", "content", "timestamp": now, "metadata"}`. -/
structure Message where
  id : String
  role : String
  content : String
  timestamp : Nat
  metadata : MessageMeta
deriving DecidableEq, Repr

/-- `WebChatSession`: one chat session with its append-only history. -/
structure WebChatSession where
  session_id : String
  created_at : Nat
  messages : List Message
  last_activity : Nat
deriving DecidableEq, Repr

/-- `WebChatSession.__init__`. -/
def WebChatSession.new (sid : String) (now : Nat) : WebChatSession :=
  ⟨sid, now, [], now⟩

/-- `WebChatSession.add_message`: build the message with a fresh
server-assigned id and the current timestamp, append it, bump
`last_activity`, and return it. -/
def WebChatSession.add_message (s : WebChatSession) (role content : String)
    (metadata : MessageMeta) (newId : String) (now : Nat) :
    WebChatSession × Message :=
  let message : Message := ⟨newId, role, content, now, metadata⟩
  ({ s with messages := s.messages ++ [message], last_activity := now },
   message)

/-- Python `self.messages[-limit:]` for an integer `limit` (as reached by
`get_history` with a truthy limit, so `limit ≠ 0`): a negative slice start
clamps at the front of the list, a positive start drops that many
elements. -/
def pyTailSlice (msgs : List Message) (limit : Int) : List Message :=
  if 0 < limit then msgs.drop (msgs.length - limit.toNat)
  else msgs.drop ((-limit).toNat)

/-- `WebChatSession.get_history`: `if limit:` is false for both `None` and
`0`, in which case a copy of the whole history is returned; otherwise
`self.messages[-limit:]`. -/
def WebChatSession.get_history (s : WebChatSession) (limit : Option Int) :
    List Message :=
  match limit with
  | some l => if l ≠ 0 then pyTailSlice s.messages l else s.messages
  | none => s.messages

/-- A WebSocket connection. `sendFails` tells whether `send_text` on this
transport raises (the connection is closed). -/
structure Conn where
  id : Nat
  sendFails : Bool
deriving DecidableEq, Repr

/-- A server→client JSON event: `{"type": "message", "message": …}` or
`{"type": "typing", "is_typing": …}`. -/
inductive BroadcastEvent
  | message (m : Message)
  | typing (is_typing : Bool)
deriving DecidableEq, Repr

/-- `WebInterface`: the session registry and the per-session connection
attachment table. -/
structure WebInterface where
  sessions : List (String × WebChatSession)
  active_connections : List (String × List Conn)
deriving DecidableEq, Repr

/-! ## web_interface.py — operations -/

/-- `WebInterface.create_session`: fresh uuid (the `freshId` parameter),
empty session stored under it, empty attachment list, id returned. -/
def WebInterface.create_session (st : WebInterface) (freshId : String)
    (now : Nat) : WebInterface × String :=
  ({ sessions := dictSet st.sessions freshId (WebChatSession.new freshId now),
     active_connections := dictSet st.active_connections freshId [] },
   freshId)

/-- `WebInterface.get_session`: `self.sessions.get(session_id)`. -/
def WebInterface.get_session (st : WebInterface) (sid : String) :
    Option WebChatSession :=
  List.lookup sid st.sessions

/-- `WebInterface.add_connection`: create the attachment list if missing,
then append the websocket. -/
def WebInterface.add_connection (st : WebInterface) (sid : String)
    (ws : Conn) : WebInterface :=
  let cur := (List.lookup sid st.active_connections).getD []
  { st with active_connections :=
      dictSet st.active_connections sid (cur ++ [ws]) }

/-- `WebInterface.remove_connection`: remove the websocket from the
session's attachment list if present (`ValueError` swallowed). Python
`list.remove` deletes the first occurrence only. -/
def WebInterface.remove_connection (st : WebInterface) (sid : String)
    (ws : Conn) : WebInterface :=
  match List.lookup sid st.active_connections with
  | none => st
  | some conns =>
      { st with active_connections :=
          dictSet st.active_connections sid (conns.eraseP (fun c => c == ws)) }

/-- `WebInterface.broadcast_to_session`: no-op when the session id has no
attachment entry; otherwise `send_text` the JSON-encoded event on every
attached connection in order, keeping exactly those whose send did not
raise (each send is wrapped in its own `try/except`, so one closed
connection never blocks delivery to its siblings and nothing propagates to
the caller). Returns the new state and the connections that received the
event. -/
def WebInterface.broadcast_to_session (st : WebInterface) (sid : String)
    (_ev : BroadcastEvent) : WebInterface × List Conn :=
  match List.lookup sid st.active_connections with
  | none => (st, [])
  | some conns =>
      let alive := conns.filter (fun c => !c.sendFails)
      ({ st with active_connections := dictSet st.active_connections sid alive },
       alive)

/-- The dict returned by `WebInterface.process_query_async`: either the
success dict `{"success": True, "session_id", "user_message",
"assistant_message"}` or the error dict `{"error", "session_id"}` (which is
also what the session-not-found guard returns). -/
inductive PQResult
  | ok (session_id : String) (user_message assistant_message : Message)
  | err (error : String) (session_id : String)
deriving DecidableEq, Repr

/-- `WebInterface.process_query_async`.

`gen` is the outcome of `await loop.run_in_executor(None,
self.query_engine.query, query)` — the string it returns, or the exception
(message) it propagates, which lands in the `except` branch.
`id1`/`t1` and `id2`/`t2` are the uuid and `datetime.now()` drawn for the
user and the assistant message respectively.

Returned: the state afterwards, the broadcast events in emission order,
and the result dict. -/
def WebInterface.process_query_async (st : WebInterface) (sid query : String)
    (gen : Except String String) (id1 id2 : String) (t1 t2 : Nat) :
    WebInterface × List BroadcastEvent × PQResult :=
  match WebInterface.get_session st sid with
  | none => (st, [], PQResult.err "Session not found" sid)
  | some session =>
    let r1 := session.add_message "user" query {} id1 t1
    let session1 := r1.1
    let user_message := r1.2
    let st1 := { st with sessions := dictSet st.sessions sid session1 }
    let st2 := (st1.broadcast_to_session sid
      (BroadcastEvent.message user_message)).1
    let st3 := (st2.broadcast_to_session sid (BroadcastEvent.typing true)).1
    match gen with
    | Except.ok response_text =>
      let r2 := session1.add_message "assistant" response_text
        { model := some config.OLLAMA_MODEL, top_k := some config.TOP_K }
        id2 t2
      let session2 := r2.1
      let assistant_message := r2.2
      let st4 := { st3 with sessions := dictSet st3.sessions sid session2 }
      let st5 := (st4.broadcast_to_session sid (BroadcastEvent.typing false)).1
      let st6 := (st5.broadcast_to_session sid
        (BroadcastEvent.message assistant_message)).1
      (st6,
       [BroadcastEvent.message user_message, BroadcastEvent.typing true,
        BroadcastEvent.typing false, BroadcastEvent.message assistant_message],
       PQResult.ok sid user_message assistant_message)
    | Except.error e =>
      let st4 := (st3.broadcast_to_session sid (BroadcastEvent.typing false)).1
      let error_message := "Error processing query: " ++ e
      let r2 := session1.add_message "assistant" error_message
        { error := true } id2 t2
      let session2 := r2.1
      let error_response := r2.2
      let st5 := { st4 with sessions := dictSet st4.sessions sid session2 }
      let st6 := (st5.broadcast_to_session sid
        (BroadcastEvent.message error_response)).1
      (st6,
       [BroadcastEvent.message user_message, BroadcastEvent.typing true,
        BroadcastEvent.typing false, BroadcastEvent.message error_response],
       PQResult.err error_message sid)

/-- `WebInterface.get_session_history`: `[]` for an unknown session, the
session's `get_history` otherwise. -/
def WebInterface.get_session_history (st : WebInterface) (sid : String)
    (limit : Option Int) : List Message :=
  match WebInterface.get_session st sid with
  | none => []
  | some session => session.get_history limit

/-- `WebInterface.cleanup_old_sessions`: collect the ids of the sessions
whose `last_activity` is strictly before `now - max_age_hours` (here in
seconds), then delete each from both tables (`del self.sessions[sid]`, and
`del self.active_connections[sid]` when present), returning how many were
removed. -/
def WebInterface.cleanup_old_sessions (st : WebInterface)
    (now max_age_hours : Nat) : WebInterface × Nat :=
  let cutoff_time := now - max_age_hours * 3600
  let sessions_to_remove :=
    (st.sessions.filter (fun p => decide (p.2.last_activity < cutoff_time))).map
      Prod.fst
  let st1 := sessions_to_remove.foldl
    (fun acc sid =>
      { sessions := dictDel acc.sessions sid,
        active_connections := dictDel acc.active_connections sid })
    st
  (st1, sessions_to_remove.length)

/-! ## web_server.py -/

/-- The request body of `POST /api/chat`:
`{query: string, session_id?: string}`. -/
structure ChatMessage where
  query : String
  session_id : Option String
deriving DecidableEq, Repr

/-- The `ChatResponse` pydantic model. -/
structure ChatResponse where
  success : Bool
  session_id : String
  message : Option Message := none
  error : Option String := none
deriving DecidableEq, Repr

/-- An endpoint either returns its response model or raises an
`HTTPException(status_code, detail)`. -/
inductive EndpointResult (α : Type)
  | ok (r : α)
  | httpError (code : Nat) (detail : String)
deriving DecidableEq, Repr

/-- The tail of `chat_endpoint` shared by its branches: run
`process_query_async` under `session_id` and translate the result dict
(`if "error" in result: …`) into a `ChatResponse`. -/
def chatRespond (st : WebInterface) (session_id query : String)
    (gen : Except String String) (id1 id2 : String) (t1 t2 : Nat) :
    WebInterface × EndpointResult ChatResponse :=
  let r := st.process_query_async session_id query gen id1 id2 t1 t2
  match r.2.2 with
  | PQResult.err e _ =>
      (r.1, EndpointResult.ok ⟨false, session_id, none, some e⟩)
  | PQResult.ok _ _ assistant_message =>
      (r.1, EndpointResult.ok ⟨true, session_id, some assistant_message, none⟩)

/-- `POST /api/chat` (`chat_endpoint`), with the web interface initialized.
`if not session_id:` is taken for an omitted field and for the empty
string (both falsy); then a session is created (uuid `freshId`) and the
query processed under it. A non-falsy `session_id` that is not in the
registry raises `HTTPException(404, "Session not found")`. Otherwise the
query is processed under the given id. -/
def chat_endpoint (st : WebInterface) (m : ChatMessage) (freshId : String)
    (now : Nat) (gen : Except String String) (id1 id2 : String)
    (t1 t2 : Nat) : WebInterface × EndpointResult ChatResponse :=
  let falsy := match m.session_id with
    | none => true
    | some s => s == ""
  if falsy then
    let r := st.create_session freshId now
    chatRespond r.1 r.2 m.query gen id1 id2 t1 t2
  else
    let session_id := m.session_id.getD ""
    if (st.get_session session_id).isNone then
      (st, EndpointResult.httpError 404 "Session not found")
    else
      chatRespond st session_id m.query gen id1 id2 t1 t2

/-- `GET /api/sessions/{session_id}/history` (`get_session_history`
endpoint): 404 when the session is unknown, otherwise
`{"session_id", "messages": history}` with the optional `limit` query
parameter passed through. -/
def get_session_history_endpoint (st : WebInterface) (sid : String)
    (limit : Option Int) : EndpointResult (String × List Message) :=
  if (st.get_session sid).isNone then
    EndpointResult.httpError 404 "Session not found"
  else
    EndpointResult.ok (sid, st.get_session_history sid limit)

/-- The connect phase of `websocket_endpoint` (`/ws/{session_id}`), after
`websocket.accept()` and before the receive loop: when the URL's session id
is unknown, `web_interface.create_session()` is called — which stores a new
session under a fresh uuid (`freshId`) and returns that id, the return
value being discarded — and then, since the URL id is still not in
`web_interface.sessions`, a `WebChatSession(session_id)` is stored directly
under the URL id (with no attachment entry of its own; `add_connection`
creates it). Finally the websocket is attached to the URL id. -/
def websocket_connect (st : WebInterface) (sid : String) (ws : Conn)
    (freshId : String) (now : Nat) : WebInterface :=
  let st1 :=
    if (st.get_session sid).isNone then
      let stA := (st.create_session freshId now).1
      if (List.lookup sid stA.sessions).isNone then
        let sessions1 := dictSet stA.sessions sid (WebChatSession.new sid now)
        { stA with sessions := sessions1 }
      else stA
    else st
  st1.add_connection sid ws

/-! ## Lemmas about the dict model -/

theorem lookup_map_setEntry_self {α : Type} (t : List (String × α))
    (k : String) (v : α) (hany : t.any (fun p => p.1 == k) = true) :
    List.lookup k (t.map (fun p => if p.1 == k then (k, v) else p)) =
      some v := by
  induction t with
  | nil => simp at hany
  | cons p t ih =>
    obtain ⟨pk, pv⟩ := p
    by_cases hp : pk = k
    · subst hp
      simp
    · rw [List.any_cons] at hany
      have h1 : ((pk, pv).1 == k) = false := beq_false_of_ne hp
      rw [h1, Bool.false_or] at hany
      have h2 : (k == pk) = false := beq_false_of_ne (Ne.symm hp)
      simp only [List.map_cons, h1, Bool.false_eq_true, if_false,
        List.lookup_cons, h2]
      exact ih hany

theorem lookup_append_single_self {α : Type} (t : List (String × α))
    (k : String) (v : α) (hany : t.any (fun p => p.1 == k) = false) :
    List.lookup k (t ++ [(k, v)]) = some v := by
  induction t with
  | nil => simp
  | cons p t ih =>
    obtain ⟨pk, pv⟩ := p
    rw [List.any_cons, Bool.or_eq_false_iff] at hany
    obtain ⟨h1, h2⟩ := hany
    have h3 : (k == pk) = false := beq_false_of_ne (Ne.symm (ne_of_beq_false h1))
    simp only [List.cons_append, List.lookup_cons, h3]
    exact ih h2

theorem lookup_dictSet_self {α : Type} (l : List (String × α)) (k : String)
    (v : α) : List.lookup k (dictSet l k v) = some v := by
  cases hany : l.any (fun p => p.1 == k) with
  | true =>
    simp only [dictSet, hany, if_true]
    exact lookup_map_setEntry_self l k v hany
  | false =>
    simp only [dictSet, hany, Bool.false_eq_true, if_false]
    exact lookup_append_single_self l k v hany

theorem lookup_map_setEntry_ne {α : Type} (t : List (String × α))
    (k k2 : String) (v : α) (h : k2 ≠ k) :
    List.lookup k2 (t.map (fun p => if p.1 == k then (k, v) else p)) =
      List.lookup k2 t := by
  induction t with
  | nil => simp
  | cons p t ih =>
    obtain ⟨pk, pv⟩ := p
    by_cases hp : pk = k
    · subst hp
      have h2 : (k2 == pk) = false := beq_false_of_ne h
      simp only [List.map_cons, beq_self_eq_true, if_true, List.lookup_cons,
        h2]
      exact ih
    · have h1 : ((pk, pv).1 == k) = false := beq_false_of_ne hp
      simp only [List.map_cons, h1, Bool.false_eq_true, if_false,
        List.lookup_cons]
      cases h4 : k2 == pk with
      | true => rfl
      | false => exact ih

theorem lookup_append_single_ne {α : Type} (t : List (String × α))
    (k k2 : String) (v : α) (h : k2 ≠ k) :
    List.lookup k2 (t ++ [(k, v)]) = List.lookup k2 t := by
  induction t with
  | nil => simp [List.lookup_cons, beq_false_of_ne h]
  | cons p t ih =>
    obtain ⟨pk, pv⟩ := p
    simp only [List.cons_append, List.lookup_cons]
    cases h4 : k2 == pk with
    | true => rfl
    | false => exact ih

theorem lookup_dictSet_ne {α : Type} (l : List (String × α)) (k k2 : String)
    (v : α) (h : k2 ≠ k) :
    List.lookup k2 (dictSet l k v) = List.lookup k2 l := by
  cases hany : l.any (fun p => p.1 == k) with
  | true =>
    simp only [dictSet, hany, if_true]
    exact lookup_map_setEntry_ne l k k2 v h
  | false =>
    simp only [dictSet, hany, Bool.false_eq_true, if_false]
    exact lookup_append_single_ne l k k2 v h

/-- `broadcast_to_session` never touches the session table. -/
theorem broadcast_sessions_eq (st : WebInterface) (sid : String)
    (ev : BroadcastEvent) :
    (st.broadcast_to_session sid ev).1.sessions = st.sessions := by
  cases h : List.lookup sid st.active_connections <;>
    simp [WebInterface.broadcast_to_session, h]

/-! ## Theorems -/

/-- C1 (counterexample): `QueryEngine.query` does not return "either an
answer string or a typed QueryError" — both outcomes are plain strings of
the same type, and they can coincide: a backend that successfully answers
with the string "Error processing query: boom" is indistinguishable, to the
caller, from a backend that raised the exception "boom". So the caller does
not receive one of two typed outcomes. -/
theorem C1_counterexample :
    QueryEngine.query (fun _ => Except.ok "Error processing query: boom") "q" =
      QueryEngine.query (fun _ => Except.error "boom") "q" := rfl

/-- C1 (amended): for every query string, `QueryEngine.query` never
propagates a backend exception and always returns exactly one string: the
backend's rendered response on success, or the error-prefixed message
`"Error processing query: <exception text>"` on failure. The error is a
plain string, not a typed error value distinct from an answer. -/
theorem C1_amended (backend : String → Except String String) (q : String) :
    (∀ a, backend q = Except.ok a → QueryEngine.query backend q = a) ∧
    (∀ e, backend q = Except.error e →
      QueryEngine.query backend q = "Error processing query: " ++ e) := by
  constructor
  · intro a h
    simp [QueryEngine.query, h]
  · intro e h
    simp [QueryEngine.query, h]

/-- C1 witness: the amended theorem at a failing backend. -/
theorem C1_amended_witness :
    QueryEngine.query (fun _ => Except.error "backend down") "q" =
      "Error processing query: backend down" :=
  (C1_amended (fun _ => Except.error "backend down") "q").2 "backend down" rfl

/-- C2 (counterexample): the build path does not persist with an
all-or-nothing write. With no artifact present, a successful build whose
`pickle.dump` fails midway leaves a truncated (partial) artifact at the
configured location while the call fails — contradicting "for every
failure during the build or the write, no partial or corrupt index
artifact exists at the configured location afterward". -/
theorem C2_counterexample :
    (load_or_create_index ⟨ArtifactState.absent⟩ ["doc"]
        (fun _ => Except.ok 7) WriteOutcome.failsMidway).1.artifact =
      ArtifactState.truncated ∧
    (load_or_create_index ⟨ArtifactState.absent⟩ ["doc"]
        (fun _ => Except.ok 7) WriteOutcome.failsMidway).2 =
      Except.error LoadOrCreateError.writeFailed :=
  ⟨rfl, rfl⟩

/-- C2 (amended): on the build path, an embedding-call failure aborts the
whole build before anything is written, so no artifact (partial or
otherwise) exists afterward; a build whose write completes leaves exactly
the complete artifact; but the write is direct (no write-to-temp-then-
rename), so a failure during the write itself leaves a truncated artifact
behind. -/
theorem C2_amended (fs : FS) (documents : List String)
    (buildIndex : List String → Except Unit Nat) (w : WriteOutcome)
    (h : fs.artifact = ArtifactState.absent) :
    ((∃ u, buildIndex documents = Except.error u) →
      load_or_create_index fs documents buildIndex w =
        (fs, Except.error LoadOrCreateError.embedding)) ∧
    (∀ idx, buildIndex documents = Except.ok idx →
      w = WriteOutcome.success →
      load_or_create_index fs documents buildIndex w =
        (⟨ArtifactState.complete idx⟩, Except.ok idx)) ∧
    (∀ idx, buildIndex documents = Except.ok idx →
      w = WriteOutcome.failsMidway →
      load_or_create_index fs documents buildIndex w =
        (⟨ArtifactState.truncated⟩,
         Except.error LoadOrCreateError.writeFailed)) := by
  obtain ⟨a⟩ := fs
  simp only at h
  subst h
  refine ⟨?_, ?_, ?_⟩
  · rintro ⟨u, hb⟩
    simp [load_or_create_index, _index_exists, hb]
  · intro idx hb hw
    subst hw
    simp [load_or_create_index, _index_exists, hb, _persist_index]
  · intro idx hb hw
    subst hw
    simp [load_or_create_index, _index_exists, hb, _persist_index]

/-- C2 witness: the amended theorem at an absent artifact, a successful
build and a completing write. -/
theorem C2_amended_witness :
    load_or_create_index ⟨ArtifactState.absent⟩ ["d"]
        (fun _ => Except.ok 3) WriteOutcome.success =
      (⟨ArtifactState.complete 3⟩, Except.ok 3) :=
  (C2_amended ⟨ArtifactState.absent⟩ ["d"] (fun _ => Except.ok 3)
      WriteOutcome.success rfl).2.1 3 rfl rfl

/-- C5 (confirmed): when a persisted artifact exists, `load_or_create_index`
is entirely independent of the supplied documents, of the chunk/embed/build
machinery and of the write outcome — existence of the artifact alone
decides load versus build, with no staleness check against the corpus — and
a well-formed artifact is deserialized and returned with the file system
untouched. -/
theorem C5_load_ignores_documents (fs : FS)
    (documents documents2 : List String)
    (buildIndex buildIndex2 : List String → Except Unit Nat)
    (w w2 : WriteOutcome) (h : _index_exists fs = true) :
    load_or_create_index fs documents buildIndex w =
      load_or_create_index fs documents2 buildIndex2 w2 ∧
    (∀ idx, fs.artifact = ArtifactState.complete idx →
      load_or_create_index fs documents buildIndex w = (fs, Except.ok idx)) := by
  constructor
  · simp [load_or_create_index, h]
  · intro idx hidx
    simp [load_or_create_index, h, hidx]

/-- Deleting a key and then filtering by a list of keys is one filter by
the extended key list. -/
theorem dictDel_filter {α : Type} (l : List (String × α)) (k : String)
    (ks : List String) :
    (dictDel l k).filter (fun p => !ks.contains p.1) =
      l.filter (fun p => !(k :: ks).contains p.1) := by
  rw [dictDel, List.filter_filter]
  apply List.filter_congr
  intro p _
  cases hc : p.1 == k <;> cases hk : ks.contains p.1 <;>
    simp [List.contains_cons, hc, hk, bne]
  · exact ⟨ne_of_beq_false hc, by simpa using hk⟩
  · exact fun _ => by simpa using hk
  · exact fun hn => absurd (eq_of_beq hc) hn
  · exact fun hn => absurd (eq_of_beq hc) hn

/-- The deletion loop of `cleanup_old_sessions` keeps, in both tables,
exactly the entries whose key is not among the removed ids. -/
theorem cleanup_foldl (ids : List String) (st : WebInterface) :
    ids.foldl (fun acc sid =>
        { sessions := dictDel acc.sessions sid,
          active_connections := dictDel acc.active_connections sid }) st =
      ⟨st.sessions.filter (fun p => !ids.contains p.1),
       st.active_connections.filter (fun p => !ids.contains p.1)⟩ := by
  induction ids generalizing st with
  | nil =>
    obtain ⟨s, a⟩ := st
    simp
  | cons k ks ih =>
    rw [List.foldl_cons, ih]
    simp only [dictDel_filter]

/-- Recognizes the typing-stop event `{"type": "typing", "is_typing": False}`. -/
def isTypingStop : BroadcastEvent → Bool
  | BroadcastEvent.typing false => true
  | _ => false

/-- C3 (confirmed): for a query against an existing session, the broadcast
events are emitted in the fixed order user-message, typing-start,
typing-stop, assistant-message, and typing-stop is emitted exactly once —
on the success path and on the failure path alike. -/
theorem C3_event_order (st : WebInterface) (sid query : String)
    (gen : Except String String) (id1 id2 : String) (t1 t2 : Nat)
    (h : (st.get_session sid).isSome = true) :
    (∃ um am,
      (st.process_query_async sid query gen id1 id2 t1 t2).2.1 =
        [BroadcastEvent.message um, BroadcastEvent.typing true,
         BroadcastEvent.typing false, BroadcastEvent.message am]) ∧
    ((st.process_query_async sid query gen id1 id2 t1 t2).2.1.countP
      isTypingStop) = 1 := by
  obtain ⟨session, hs⟩ := Option.isSome_iff_exists.mp h
  cases gen with
  | ok r =>
    constructor
    · exact ⟨⟨id1, "user", query, t1, {}⟩,
        ⟨id2, "assistant", r, t2,
         { model := some config.OLLAMA_MODEL, top_k := some config.TOP_K }⟩,
        by simp [WebInterface.process_query_async, hs,
          WebChatSession.add_message]⟩
    · simp [WebInterface.process_query_async, hs, isTypingStop]
  | error e =>
    constructor
    · exact ⟨⟨id1, "user", query, t1, {}⟩,
        ⟨id2, "assistant", "Error processing query: " ++ e, t2,
         { error := true }⟩,
        by simp [WebInterface.process_query_async, hs,
          WebChatSession.add_message]⟩
    · simp [WebInterface.process_query_async, hs, isTypingStop]

/-- C3 witness: the theorem at a one-session state and a successful
generation. -/
theorem C3_witness :
    (∃ um am, (WebInterface.process_query_async
        ⟨[("s", WebChatSession.new "s" 0)], []⟩ "s" "hello" (Except.ok "ans")
        "u1" "u2" 1 2).2.1 =
      [BroadcastEvent.message um, BroadcastEvent.typing true,
       BroadcastEvent.typing false, BroadcastEvent.message am]) ∧
    ((WebInterface.process_query_async ⟨[("s", WebChatSession.new "s" 0)], []⟩
        "s" "hello" (Except.ok "ans") "u1" "u2" 1 2).2.1.countP isTypingStop)
      = 1 :=
  C3_event_order ⟨[("s", WebChatSession.new "s" 0)], []⟩ "s" "hello"
    (Except.ok "ans") "u1" "u2" 1 2 (by decide)

/-- C6 (confirmed): a broadcast to a session (a) leaves attached exactly the
connections whose send did not fail, (b) delivers the event to exactly
those connections, (c) removes every connection whose send fails, (d) still
delivers to every other attached connection, (e) leaves the session table
alone and (f) leaves every other session's attachments alone. Each send is
individually guarded, so the operation is total — it never raises to its
caller. -/
theorem C6_broadcast (st : WebInterface) (sid : String) (ev : BroadcastEvent) :
    ((List.lookup sid
        (st.broadcast_to_session sid ev).1.active_connections).getD [] =
      ((List.lookup sid st.active_connections).getD []).filter
        (fun c => !c.sendFails)) ∧
    ((st.broadcast_to_session sid ev).2 =
      ((List.lookup sid st.active_connections).getD []).filter
        (fun c => !c.sendFails)) ∧
    (∀ c, c ∈ (List.lookup sid st.active_connections).getD [] →
      c.sendFails = true →
      c ∉ (List.lookup sid
        (st.broadcast_to_session sid ev).1.active_connections).getD []) ∧
    (∀ c, c ∈ (List.lookup sid st.active_connections).getD [] →
      c.sendFails = false → c ∈ (st.broadcast_to_session sid ev).2) ∧
    ((st.broadcast_to_session sid ev).1.sessions = st.sessions) ∧
    (∀ sid2, sid2 ≠ sid →
      List.lookup sid2 (st.broadcast_to_session sid ev).1.active_connections =
        List.lookup sid2 st.active_connections) := by
  have hmain : (List.lookup sid
      (st.broadcast_to_session sid ev).1.active_connections).getD [] =
      ((List.lookup sid st.active_connections).getD []).filter
        (fun c => !c.sendFails) := by
    cases hl : List.lookup sid st.active_connections with
    | none => simp [WebInterface.broadcast_to_session, hl]
    | some conns =>
      simp [WebInterface.broadcast_to_session, hl, lookup_dictSet_self]
  have hdeliv : (st.broadcast_to_session sid ev).2 =
      ((List.lookup sid st.active_connections).getD []).filter
        (fun c => !c.sendFails) := by
    cases hl : List.lookup sid st.active_connections with
    | none => simp [WebInterface.broadcast_to_session, hl]
    | some conns => simp [WebInterface.broadcast_to_session, hl]
  refine ⟨hmain, hdeliv, ?_, ?_, broadcast_sessions_eq st sid ev, ?_⟩
  · intro c _ hcf
    rw [hmain]
    simp [List.mem_filter, hcf]
  · intro c hc hcf
    rw [hdeliv]
    exact List.mem_filter.mpr ⟨hc, by simp [hcf]⟩
  · intro sid2 hne
    cases hl : List.lookup sid st.active_connections with
    | none => simp [WebInterface.broadcast_to_session, hl]
    | some conns =>
      simp [WebInterface.broadcast_to_session, hl,
        lookup_dictSet_ne _ _ _ _ hne]

/-- C6 witness: the theorem at a session with one failing and one live
connection — the failing one is absent afterwards. -/
theorem C6_witness :
    (⟨1, true⟩ : Conn) ∉
      (List.lookup "s" (WebInterface.broadcast_to_session
        ⟨[("s", WebChatSession.new "s" 0)],
         [("s", [⟨1, true⟩, ⟨2, false⟩])]⟩ "s"
        (BroadcastEvent.typing true)).1.active_connections).getD [] :=
  (C6_broadcast ⟨[("s", WebChatSession.new "s" 0)],
      [("s", [⟨1, true⟩, ⟨2, false⟩])]⟩ "s" (BroadcastEvent.typing true)).2.2.1
    ⟨1, true⟩ (by decide) rfl

/-- C7 (confirmed): a query against an unknown session id yields the
session-not-found error dict without touching the state (never a crash);
appending to a known session appends exactly one Message carrying the
server-assigned id and timestamp and the given role/content, updates
`last_activity`, returns that Message, and the history afterwards has it
as its last element. -/
theorem C7_append (st : WebInterface) (sid q : String)
    (gen : Except String String) (id1 id2 : String) (t1 t2 : Nat)
    (s : WebChatSession) (role content : String) (meta : MessageMeta)
    (newId : String) (now : Nat) :
    ((st.get_session sid).isNone = true →
      st.process_query_async sid q gen id1 id2 t1 t2 =
        (st, [], PQResult.err "Session not found" sid)) ∧
    ((s.add_message role content meta newId now).1.messages =
      s.messages ++ [(s.add_message role content meta newId now).2]) ∧
    ((s.add_message role content meta newId now).2 =
      ⟨newId, role, content, now, meta⟩) ∧
    ((s.add_message role content meta newId now).1.last_activity = now) ∧
    (((s.add_message role content meta newId now).1.get_history none).getLast?
      = some (s.add_message role content meta newId now).2) := by
  refine ⟨?_, rfl, rfl, rfl, ?_⟩
  · intro h
    rw [Option.isNone_iff_eq_none] at h
    simp [WebInterface.process_query_async, h]
  · simp [WebChatSession.add_message, WebChatSession.get_history]

/-- C7 witness: the theorem's not-found branch at an empty registry. -/
theorem C7_witness :
    WebInterface.process_query_async ⟨[], []⟩ "ghost" "q" (Except.ok "a")
        "u1" "u2" 1 2 =
      (⟨[], []⟩, [], PQResult.err "Session not found" "ghost") :=
  (C7_append ⟨[], []⟩ "ghost" "q" (Except.ok "a") "u1" "u2" 1 2
      (WebChatSession.new "s" 0) "user" "hi" {} "m1" 3).1 (by decide)

/-- C10 (confirmed): `get_history` with an explicit limit of `0` returns
the entire message sequence, exactly as with no limit (Python `if limit:`
is false for `0`); with a strictly positive limit `n` it returns the most
recent `min n (length)` messages in append order (a suffix of the
history). -/
theorem C10_history_limit (s : WebChatSession) (n : Int) (h : 0 < n) :
    s.get_history (some 0) = s.messages ∧
    s.get_history (some 0) = s.get_history none ∧
    List.IsSuffix (s.get_history (some n)) s.messages ∧
    (s.get_history (some n)).length = min n.toNat s.messages.length := by
  have hne : n ≠ 0 := ne_of_gt h
  have hval : s.get_history (some n) =
      s.messages.drop (s.messages.length - n.toNat) := by
    simp only [WebChatSession.get_history]
    rw [if_pos hne]
    simp only [pyTailSlice]
    rw [if_pos h]
  refine ⟨by simp [WebChatSession.get_history],
    by simp [WebChatSession.get_history], ?_, ?_⟩
  · rw [hval]
    exact List.drop_suffix _ _
  · rw [hval, List.length_drop]
    omega

/-- C10 witness: the theorem at a two-message history with limit 1. -/
theorem C10_witness :
    WebChatSession.get_history
        ⟨"s", 0, [⟨"m1", "user", "a", 1, {}⟩, ⟨"m2", "assistant", "b", 2, {}⟩],
         2⟩ (some 0) =
      [⟨"m1", "user", "a", 1, {}⟩, ⟨"m2", "assistant", "b", 2, {}⟩] :=
  (C10_history_limit
    ⟨"s", 0, [⟨"m1", "user", "a", 1, {}⟩, ⟨"m2", "assistant", "b", 2, {}⟩], 2⟩
    1 (by decide)).1

/-- C5 witness: the theorem at a complete artifact and two unrelated
document lists. -/
theorem C5_witness :
    load_or_create_index ⟨ArtifactState.complete 9⟩ ["a"]
        (fun _ => Except.ok 1) WriteOutcome.success =
      (⟨ArtifactState.complete 9⟩, Except.ok 9) :=
  (C5_load_ignores_documents ⟨ArtifactState.complete 9⟩ ["a"] ["b", "c"]
      (fun _ => Except.ok 1) (fun _ => Except.error ()) WriteOutcome.success
      WriteOutcome.failsMidway (by decide)).2 9 rfl

/-- C9 (confirmed): opening a WebSocket under a session id not in the
registry stores a session under exactly that id and attaches the websocket
to it — but, as a side effect of the discarded `create_session()` call,
also stores a second session under the fresh uuid, with no connection
attached to it and its id referenced nowhere (an orphan left in the
registry). -/
theorem C9_orphan_session (st : WebInterface) (sid : String) (ws : Conn)
    (freshId : String) (now : Nat)
    (h1 : st.get_session sid = none) (h2 : freshId ≠ sid) :
    (List.lookup sid (websocket_connect st sid ws freshId now).sessions =
      some (WebChatSession.new sid now)) ∧
    (List.lookup freshId (websocket_connect st sid ws freshId now).sessions =
      some (WebChatSession.new freshId now)) ∧
    (List.lookup freshId
      (websocket_connect st sid ws freshId now).active_connections =
      some []) ∧
    (List.lookup sid
      (websocket_connect st sid ws freshId now).active_connections =
      some ((List.lookup sid st.active_connections).getD [] ++ [ws])) := by
  have hlook : List.lookup sid st.sessions = none := h1
  have hsid_ne : sid ≠ freshId := Ne.symm h2
  have hA : List.lookup sid
      (dictSet st.sessions freshId (WebChatSession.new freshId now)) =
      none := by
    rw [lookup_dictSet_ne _ _ _ _ hsid_ne, hlook]
  refine ⟨?_, ?_, ?_, ?_⟩ <;>
    simp [websocket_connect, WebInterface.get_session, hlook,
      WebInterface.create_session, WebInterface.add_connection, hA,
      lookup_dictSet_self, lookup_dictSet_ne _ _ _ _ hsid_ne,
      lookup_dictSet_ne _ _ _ _ h2]

/-- C9 witness: the theorem at an empty registry. -/
theorem C9_witness :
    List.lookup "f"
        (websocket_connect ⟨[], []⟩ "s" ⟨1, false⟩ "f" 0).sessions =
      some (WebChatSession.new "f" 0) :=
  (C9_orphan_session ⟨[], []⟩ "s" ⟨1, false⟩ "f" 0 rfl (by decide)).2.1

/-- The chat endpoint's translating tail, on a session present in the
registry: it always answers `200` with a `ChatResponse` carrying exactly
that session id and either a success message or an error string, and the
session is still in the registry afterwards. -/
theorem chatRespond_found (st : WebInterface) (sid q : String)
    (gen : Except String String) (id1 id2 : String) (t1 t2 : Nat)
    (session : WebChatSession) (hs : st.get_session sid = some session) :
    (∃ resp, (chatRespond st sid q gen id1 id2 t1 t2).2 =
        EndpointResult.ok resp ∧ resp.session_id = sid ∧
        ((resp.success = true ∧ resp.message.isSome = true) ∨
         (resp.success = false ∧ resp.error.isSome = true))) ∧
    (List.lookup sid
      (chatRespond st sid q gen id1 id2 t1 t2).1.sessions).isSome = true := by
  cases gen with
  | ok r =>
    constructor
    · refine ⟨⟨true, sid,
        some ⟨id2, "assistant", r, t2,
          { model := some config.OLLAMA_MODEL, top_k := some config.TOP_K }⟩,
        none⟩, ?_, rfl, Or.inl ⟨rfl, rfl⟩⟩
      simp [chatRespond, WebInterface.process_query_async, hs,
        WebChatSession.add_message]
    · simp [chatRespond, WebInterface.process_query_async, hs,
        broadcast_sessions_eq, lookup_dictSet_self]
  | error e =>
    constructor
    · refine ⟨⟨false, sid, none, some ("Error processing query: " ++ e)⟩,
        ?_, rfl, Or.inr ⟨rfl, rfl⟩⟩
      simp [chatRespond, WebInterface.process_query_async, hs,
        WebChatSession.add_message]
    · simp [chatRespond, WebInterface.process_query_async, hs,
        broadcast_sessions_eq, lookup_dictSet_self]

/-- C4 (counterexample): a request naming a session id that is not in the
registry does not get a new session — the endpoint raises
`HTTPException(404, "Session not found")` and leaves the state unchanged,
contradicting "if the session_id field is omitted or names a session not
present in the registry, a new session is created". -/
theorem C4_counterexample :
    chat_endpoint ⟨[], []⟩ ⟨"hi", some "ghost"⟩ "fresh" 0 (Except.ok "ans")
        "u1" "u2" 1 2 =
      (⟨[], []⟩, EndpointResult.httpError 404 "Session not found") := rfl

/-- C4 (amended): only an omitted (or empty, Python-falsy) `session_id`
leads to a new session: then the request is processed under the fresh id,
the response carries that id with either a success message or an error,
and the new session is in the registry afterwards. A non-empty
`session_id` not present in the registry yields a 404 error and no new
session; a known `session_id` is processed under that id with the same
response shape. -/
theorem C4_amended (st : WebInterface) (q sid freshId : String) (now : Nat)
    (gen : Except String String) (id1 id2 : String) (t1 t2 : Nat) :
    ((∃ resp, (chat_endpoint st ⟨q, none⟩ freshId now gen id1 id2 t1 t2).2 =
        EndpointResult.ok resp ∧ resp.session_id = freshId ∧
        ((resp.success = true ∧ resp.message.isSome = true) ∨
         (resp.success = false ∧ resp.error.isSome = true))) ∧
      (List.lookup freshId
        (chat_endpoint st ⟨q, none⟩ freshId now gen id1 id2
          t1 t2).1.sessions).isSome = true) ∧
    (sid ≠ "" → st.get_session sid = none →
      chat_endpoint st ⟨q, some sid⟩ freshId now gen id1 id2 t1 t2 =
        (st, EndpointResult.httpError 404 "Session not found")) ∧
    (∀ session, sid ≠ "" → st.get_session sid = some session →
      ∃ resp, (chat_endpoint st ⟨q, some sid⟩ freshId now gen id1 id2
          t1 t2).2 =
        EndpointResult.ok resp ∧ resp.session_id = sid ∧
        ((resp.success = true ∧ resp.message.isSome = true) ∨
         (resp.success = false ∧ resp.error.isSome = true))) := by
  refine ⟨?_, ?_, ?_⟩
  · have hs : (st.create_session freshId now).1.get_session freshId =
        some (WebChatSession.new freshId now) := by
      simp [WebInterface.create_session, WebInterface.get_session,
        lookup_dictSet_self]
    have h := chatRespond_found (st.create_session freshId now).1 freshId q
      gen id1 id2 t1 t2 _ hs
    simpa [chat_endpoint] using h
  · intro hne hnone
    have hb : (sid == "") = false := beq_false_of_ne hne
    simp [chat_endpoint, hb, hnone]
  · intro session hne hsome
    have h := chatRespond_found st sid q gen id1 id2 t1 t2 session hsome
    have hb : (sid == "") = false := beq_false_of_ne hne
    simpa [chat_endpoint, hb, hsome] using h.1

/-- C4 witness: the amended theorem's known-session branch at a
one-session registry. -/
theorem C4_amended_witness :
    ∃ resp, (chat_endpoint ⟨[("s", WebChatSession.new "s" 0)], []⟩
        ⟨"q", some "s"⟩ "f" 0 (Except.ok "ans") "u1" "u2" 1 2).2 =
      EndpointResult.ok resp ∧ resp.session_id = "s" ∧
      ((resp.success = true ∧ resp.message.isSome = true) ∨
       (resp.success = false ∧ resp.error.isSome = true)) :=
  (C4_amended ⟨[("s", WebChatSession.new "s" 0)], []⟩ "q" "s" "f" 0
      (Except.ok "ans") "u1" "u2" 1 2).2.2 (WebChatSession.new "s" 0)
    (by decide) rfl

/-- C8 (confirmed): the expiry sweep removes exactly the sessions whose
`last_activity` is strictly before the cutoff `now - max_age_hours` (in
seconds), returns the number removed, and removes precisely the
connection-attachment entries keyed by a removed session id; all other
sessions and attachment entries are unchanged (the registry's dict keys
being distinct). -/
theorem C8_cleanup (st : WebInterface) (now max_age_hours : Nat)
    (hnodup : (st.sessions.map Prod.fst).Nodup) :
    (st.cleanup_old_sessions now max_age_hours).1.sessions =
      st.sessions.filter (fun p =>
        !decide (p.2.last_activity < now - max_age_hours * 3600)) ∧
    (st.cleanup_old_sessions now max_age_hours).2 =
      (st.sessions.filter (fun p =>
        decide (p.2.last_activity < now - max_age_hours * 3600))).length ∧
    (st.cleanup_old_sessions now max_age_hours).1.active_connections =
      st.active_connections.filter (fun p =>
        !((st.sessions.filter (fun q2 =>
            decide (q2.2.last_activity < now - max_age_hours * 3600))).map
          Prod.fst).contains p.1) := by
  have hfold := cleanup_foldl
    ((st.sessions.filter (fun p =>
      decide (p.2.last_activity < now - max_age_hours * 3600))).map Prod.fst)
    st
  have hmem : ∀ p ∈ st.sessions,
      (((st.sessions.filter (fun q2 =>
        decide (q2.2.last_activity < now - max_age_hours * 3600))).map
          Prod.fst).contains p.1) =
        decide (p.2.last_activity < now - max_age_hours * 3600) := by
    intro p hp
    simp only [List.contains, List.elem_eq_mem, decide_eq_decide]
    constructor
    · intro hmem1
      obtain ⟨q2, hq2, hq1⟩ := List.mem_map.mp hmem1
      obtain ⟨hq_s, hq_old⟩ := List.mem_filter.mp hq2
      have heq := List.inj_on_of_nodup_map hnodup hq_s hp hq1
      rw [heq] at hq_old
      exact of_decide_eq_true hq_old
    · intro hlt
      exact List.mem_map_of_mem _
        (List.mem_filter.mpr ⟨hp, decide_eq_true hlt⟩)
  refine ⟨?_, ?_, ?_⟩
  · simp only [WebInterface.cleanup_old_sessions, hfold]
    apply List.filter_congr
    intro p hp
    rw [hmem p hp]
  · simp [WebInterface.cleanup_old_sessions]
  · simp only [WebInterface.cleanup_old_sessions, hfold]

/-- C8 witness: the theorem at a two-session registry where one session is
stale — exactly one session is removed. -/
theorem C8_witness :
    (WebInterface.cleanup_old_sessions
      ⟨[("old", ⟨"old", 0, [], 0⟩), ("new", ⟨"new", 100000, [], 100000⟩)],
       [("old", [⟨1, false⟩]), ("new", [⟨2, false⟩])]⟩ 90000 24).2 = 1 := by
  rw [(C8_cleanup
    ⟨[("old", ⟨"old", 0, [], 0⟩), ("new", ⟨"new", 100000, [], 100000⟩)],
     [("old", [⟨1, false⟩]), ("new", [⟨2, false⟩])]⟩ 90000 24
    (by decide)).2.1]
  decide

end Chatbot
